import Mathlib

/-!
Shallow embedding of the vimix media-processing job server
(services/processor/app): the job manager (`services/job_manager.py`),
the jobs HTTP router (`routers/jobs.py`) and the processor registry
(`processors/registry.py`, `processors/base.py`, individual processor
modules).  Strings are Lean `String`s (lists of characters); Python
floats for job progress are modelled as rationals; Python dicts are
modelled as insertion-ordered association lists.  Time-valued fields
(`created_at`) are omitted: no verified claim mentions them.
-/

namespace Vimix

/-! ## Python string primitives used by the routers -/

/-- ASCII model of Python `str.lower` applied to one character. -/
def pyLowerChar (c : Char) : Char :=
  if 'A' ≤ c ∧ c ≤ 'Z' then Char.ofNat (c.toNat + 32) else c

/-- ASCII model of Python `str.lower`. -/
def pyLower (s : String) : String :=
  String.mk (s.data.map pyLowerChar)

/-- The characters after the last `'.'` of the list (the whole list when no
dot occurs): Python `s.rsplit(".", 1)[-1]`. -/
def afterLastDot (cs : List Char) : List Char :=
  (cs.reverse.takeWhile (fun c => c ≠ '.')).reverse

/-- The characters before the last `'.'` of the list:
Python `s.rsplit(".", 1)[0]` for a string containing a dot. -/
def beforeLastDot (cs : List Char) : List Char :=
  (((cs.reverse.dropWhile (fun c => c ≠ '.')).drop 1)).reverse

/-- The extension string computed by `create_job` / `create_batch`
(`routers/jobs.py`): `"." + filename.rsplit(".", 1)[-1].lower()`. -/
def derived_ext (filename : String) : String :=
  String.mk ('.' :: (afterLastDot filename.data).map pyLowerChar)

/-- Python `file.filename or "file"`: `None` and the empty string fall back
to the default. -/
def pyOr (s : Option String) (default : String) : String :=
  match s with
  | none => default
  | some t => if t = "" then default else t

/-- Final path component: `pathlib.PurePath.name` for the POSIX paths the
server builds. -/
def pathName (p : String) : String :=
  String.mk ((p.data.reverse.takeWhile (fun c => c ≠ '/')).reverse)

/-- `pathlib.PurePath.suffix`: the last dot-suffix of the final component;
empty when the name has no dot, starts with its only dot, or ends in a dot. -/
def pySuffix (p : String) : String :=
  let n := (pathName p).data
  let tail := n.reverse.takeWhile (fun c => c ≠ '.')
  if tail.length = n.length then ""
  else if n.length - tail.length - 1 = 0 then ""
  else if tail.length = 0 then ""
  else String.mk ('.' :: tail.reverse)

/-- `original_filename.rsplit(".", 1)[0] if "." in original_filename else
original_filename` (`download_result`, routers/jobs.py). -/
def stemOf (s : String) : String :=
  if s.data.contains '.' then String.mk (beforeLastDot s.data) else s

/-- ASCII whitespace stripped by Python `int(str)`. -/
def isPySpace (c : Char) : Bool :=
  c = ' ' ∨ c = '\t' ∨ c = '\n' ∨ c = '\r' ∨ c = (Char.ofNat 11) ∨ c = (Char.ofNat 12)

def isPyDigit (c : Char) : Bool := '0' ≤ c ∧ c ≤ '9'

def digitVal (c : Char) : ℕ := c.toNat - 48

/-- Digits of a Python integer literal after the first digit: further digits,
with single underscores allowed between digits. -/
def parseDigitsTail (acc : ℕ) : List Char → Option ℕ
  | [] => some acc
  | '_' :: c :: rest =>
      if isPyDigit c then parseDigitsTail (acc * 10 + digitVal c) rest else none
  | ['_'] => none
  | c :: rest =>
      if isPyDigit c then parseDigitsTail (acc * 10 + digitVal c) rest else none

def parseDigits : List Char → Option ℕ
  | [] => none
  | c :: rest => if isPyDigit c then parseDigitsTail (digitVal c) rest else none

/-- Model of Python `int(s)` on a string: optional surrounding whitespace,
optional sign, then digits (with underscores between digits). -/
def pyInt (s : String) : Option Int :=
  let cs := (s.data.dropWhile isPySpace).reverse.dropWhile isPySpace |>.reverse
  match cs with
  | '+' :: rest => (parseDigits rest).map Int.ofNat
  | '-' :: rest => (parseDigits rest).map (fun n => -(n : Int))
  | rest => (parseDigits rest).map Int.ofNat

/-- Python `round(x, 1)` over rationals (round half to even). -/
def pyRound1 (q : ℚ) : ℚ :=
  let x := q * 10
  let f : ℤ := ⌊x⌋
  let r : ℚ := x - (f : ℚ)
  let n : ℤ :=
    if r < 1/2 then f
    else if 1/2 < r then f + 1
    else if f % 2 = 0 then f else f + 1
  (n : ℚ) / 10

/-! ## JSON option values

JSON values appearing in the parsed `options` dict.  JSON numbers are
modelled as integers (fractional JSON numbers never satisfy `int(str(v))`
and no verified claim distinguishes them from other unparsable values);
nested arrays/objects are out of the model. -/

inductive JsonVal
  | null
  | bool (b : Bool)
  | int (n : Int)
  | str (s : String)
deriving DecidableEq, Repr

/-- Python `str(value)` on the modelled JSON values. -/
def pyStr : JsonVal → String
  | .null => "None"
  | .bool b => if b then "True" else "False"
  | .int n => toString n
  | .str s => s

/-! ## Insertion-ordered dictionaries (Python `dict`) -/

def dictGet {α : Type} : List (String × α) → String → Option α
  | [], _ => none
  | e :: es, k => if e.1 = k then some e.2 else dictGet es k

/-- `d[k] = v`: replace the value at an existing key in place, else append. -/
def dictSet {α : Type} : List (String × α) → String → α → List (String × α)
  | [], k, v => [(k, v)]
  | e :: es, k, v => if e.1 = k then (k, v) :: es else e :: dictSet es k v

/-- `d.pop(k, None)`: remove the key. -/
def dictPop {α : Type} (d : List (String × α)) (k : String) :
    List (String × α) :=
  d.filter (fun e => decide (e.1 ≠ k))

/-! ## Data model (`services/job_manager.py`) -/

inductive JobStatus
  | pending
  | processing
  | completed
  | failed
deriving DecidableEq, Repr

def JobStatus.value : JobStatus → String
  | .pending => "pending"
  | .processing => "processing"
  | .completed => "completed"
  | .failed => "failed"

/-- One event dict enqueued to a subscriber queue: every enqueued event
(`update_progress` events and the terminal puts in `_run_job`) carries the
three keys `progress`, `message`, `status`. -/
structure QueueEvent where
  progress : ℚ
  message : String
  status : String
deriving DecidableEq, Repr

/-- `Job` dataclass.  `listeners` is the `_listeners` field: each sink
(`asyncio.Queue`) is modelled as the list of events enqueued so far, oldest
first.  `created_at` is omitted (time-valued). -/
structure Job where
  id : String
  processor_id : String
  original_filename : String
  status : JobStatus := .pending
  progress : ℚ := 0
  message : String := ""
  result_path : Option String := none
  error : Option String := none
  listeners : List (List QueueEvent) := []
deriving DecidableEq, Repr

/-- `Job.to_dict()` without the `created_at` key. -/
structure JobDict where
  id : String
  processor_id : String
  original_filename : String
  status : String
  progress : ℚ
  message : String
  result_extension : String
  error : Option String
deriving DecidableEq, Repr

def Job.to_dict (j : Job) : JobDict :=
  let result_ext :=
    match j.result_path with
    | none => ""
    | some p => if p = "" then "" else pyLower (pySuffix p)
  { id := j.id
    processor_id := j.processor_id
    original_filename := j.original_filename
    status := j.status.value
    progress := pyRound1 j.progress
    message := j.message
    result_extension := result_ext
    error := j.error }

/-- `Batch` dataclass (`created_at` omitted). -/
structure Batch where
  id : String
  job_ids : List String
  processor_id : String
deriving DecidableEq, Repr

/-- The `JobManager`'s mutable state: the `_jobs` and `_batches` dicts. -/
structure ManagerState where
  jobs : List (String × Job) := []
  batches : List (String × Batch) := []
deriving DecidableEq, Repr

def emptyState : ManagerState := {}

namespace JobManager

/-- `JobManager.create`: the random id produced by `uuid.uuid4().hex[:12]`
is passed in as `genId`; the new job is inserted with `self._jobs[job.id] =
job` (overwriting any existing entry at that key). -/
def create (st : ManagerState) (genId processor_id original_filename : String) :
    ManagerState × Job :=
  let job : Job :=
    { id := genId
      processor_id := processor_id
      original_filename := original_filename }
  ({ st with jobs := dictSet st.jobs genId job }, job)

/-- `JobManager.get`. -/
def get (st : ManagerState) (job_id : String) : Option Job :=
  dictGet st.jobs job_id

/-- `JobManager.update_progress`: silently returns when the id is unknown;
otherwise mutates `progress` and `message` and enqueues
`(round(progress, 1), message, status.value)` to every listener queue. -/
def update_progress (st : ManagerState) (job_id : String) (progress : ℚ)
    (message : String) : ManagerState :=
  match dictGet st.jobs job_id with
  | none => st
  | some job =>
      let ev : QueueEvent :=
        { progress := pyRound1 progress, message := message
          status := job.status.value }
      let job' :=
        { job with
            progress := progress
            message := message
            listeners := job.listeners.map (fun q => q ++ [ev]) }
      { st with jobs := dictSet st.jobs job_id job' }

/-- `JobManager.mark_completed`: `self._jobs[job_id]` raises `KeyError` on an
unknown id (modelled as `none`); otherwise sets the terminal fields
unconditionally. -/
def mark_completed (st : ManagerState) (job_id result_path : String) :
    Option ManagerState :=
  match dictGet st.jobs job_id with
  | none => none
  | some job =>
      let job' : Job :=
        { job with
            status := .completed
            progress := 100
            message := "Done!"
            result_path := some result_path }
      some { st with jobs := dictSet st.jobs job_id job' }

/-- `JobManager.mark_failed`: sets status/error/message unconditionally,
leaving `progress` at its last value. -/
def mark_failed (st : ManagerState) (job_id error : String) :
    Option ManagerState :=
  match dictGet st.jobs job_id with
  | none => none
  | some job =>
      let job' : Job :=
        { job with
            status := .failed
            error := some error
            message := "Error: " ++ error }
      some { st with jobs := dictSet st.jobs job_id job' }

/-- `JobManager.subscribe`: appends a fresh empty queue to the job's
listeners (no-op result `none` on unknown id). -/
def subscribe (st : ManagerState) (job_id : String) : ManagerState :=
  match dictGet st.jobs job_id with
  | none => st
  | some job =>
      let job' : Job := { job with listeners := job.listeners ++ [[]] }
      { st with jobs := dictSet st.jobs job_id job' }

/-- `JobManager.unsubscribe`: removes the queue (identified here by its
position) when still tracked. -/
def unsubscribe (st : ManagerState) (job_id : String) (i : ℕ) : ManagerState :=
  match dictGet st.jobs job_id with
  | none => st
  | some job =>
      let job' : Job := { job with listeners := job.listeners.eraseIdx i }
      { st with jobs := dictSet st.jobs job_id job' }

/-- `JobManager.create_batch` (batch id from the random generator). -/
def create_batch (st : ManagerState) (genId processor_id : String)
    (job_ids : List String) : ManagerState × Batch :=
  let batch : Batch :=
    { id := genId, job_ids := job_ids, processor_id := processor_id }
  ({ st with batches := dictSet st.batches genId batch }, batch)

/-- `JobManager.get_batch`. -/
def get_batch (st : ManagerState) (batch_id : String) : Option Batch :=
  dictGet st.batches batch_id

/-- `JobManager.remove_job`: pops the job, removes the first occurrence of
the id from each batch containing it (Python `list.remove`), then deletes
every batch whose `job_ids` ended up empty. -/
def remove_job (st : ManagerState) (job_id : String) : ManagerState :=
  let jobs := dictPop st.jobs job_id
  let batches := st.batches.map (fun e =>
    (e.1, if job_id ∈ e.2.job_ids
          then ({ e.2 with job_ids := e.2.job_ids.erase job_id })
          else e.2))
  let batches := batches.filter (fun e => !(e.2.job_ids.isEmpty))
  { jobs := jobs, batches := batches }

end JobManager

/-! ## Processor registry projections

(`processors/registry.py`, `processors/base.py`, individual processor
modules).  `BaseProcessor` declares `id`, `label`, `description`,
`accepted_extensions`, `options_schema` and `process`; it does NOT declare
`accepts_multiple_files`. -/

/-- The `accepts_multiple_files` attribute of each registered processor, in
registration order (`registry.py`): `some b` when the class defines the
attribute with value `b`, `none` when neither the class nor `BaseProcessor`
defines it (so reading it raises `AttributeError`). -/
def registryMultiAttr : List (String × Option Bool) :=
  [ ("video-bg-remove", none)
  , ("image-bg-remove", none)
  , ("image-convert", none)
  , ("video-convert", none)
  , ("video-to-gif", none)
  , ("image-compress", none)
  , ("video-trim", none)
  , ("audio-extract", none)
  , ("video-compress", none)
  , ("image-watermark", none)
  , ("pdf-to-image", none)
  , ("video-thumbnail", none)
  , ("pdf-merge", some true)
  , ("pdf-split", none)
  , ("pdf-compress", none)
  , ("pdf-rotate", none)
  , ("pdf-protect", none)
  , ("pdf-unlock", none)
  , ("pdf-page-numbers", none)
  , ("pdf-watermark", none)
  , ("pdf-extract-text", none)
  , ("image-to-pdf", some true)
  , ("audio-convert", none)
  , ("audio-trim", none) ]

/-- `list_processors` (`registry.py`) reads `p.accepts_multiple_files` for
every registered processor while building the listing; an undefined
attribute raises `AttributeError`, modelled as the error case naming the
processor. -/
def list_processors_multi : Except String (List Bool) :=
  registryMultiAttr.mapM (fun e =>
    match e.2 with
    | none => Except.error ("AttributeError on " ++ e.1)
    | some b => Except.ok b)

/-! ## Submission path (`routers/jobs.py`) -/

/-- Projection of one `options_schema` entry onto the keys
`_validate_options` reads (`label`, `default`, `choices`, `presets`, `step`
are never read by the server). -/
structure OptionDef where
  id : String
  type : String
  min : Option Int := none
  max : Option Int := none
  allow_original : Option Bool := none
deriving DecidableEq, Repr

/-- The registry data `create_job` consumes for one processor. -/
structure Processor where
  id : String
  accepted_extensions : List String
  options_schema : List OptionDef
deriving DecidableEq, Repr

/-- `ImageConvertProcessor` (`processors/image_convert.py`): id, accepted
extensions and its options schema projected onto the validated keys. -/
def imageConvertProcessor : Processor :=
  { id := "image-convert"
    accepted_extensions := [".png", ".jpg", ".jpeg", ".webp", ".bmp", ".tiff", ".gif"]
    options_schema :=
      [ { id := "format", type := "select" }
      , { id := "quality", type := "number", min := some 1, max := some 100 }
      , { id := "resize", type := "dimension", min := some 16, max := some 7680,
          allow_original := some true } ] }

/-- The `options` form field after the router's JSON handling: `omitted`
models `None` or the empty string (`if options:` false), `malformed` a
`json.JSONDecodeError`, `parsed` the decoded JSON object. -/
inductive OptionsField
  | omitted
  | malformed
  | parsed (d : List (String × JsonVal))
deriving DecidableEq, Repr

/-- The distinct 400 details raised on the submission path; the message
formatting is abstracted to the interpolated data. -/
inductive Detail400
  | unknownProcessor (processor_id : String)
  | extNotAccepted (ext : String)
  | invalidOptionsJson
  | invalidDimensionValue (opt_id value : String)
  | dimensionOutOfRange (opt_id : String) (omin omax got : Int)
deriving DecidableEq, Repr

/-- The body of the `_validate_options` loop for a supplied (non-`None`)
dimension value: accept `"original"` when `allow_original`, else require
`int(str(value))` within `[min, max]` (defaults 1 and 99999). -/
def validate_dimension_value (opt : OptionDef) (v : JsonVal) :
    Option Detail400 :=
  let str_val := pyStr v
  if str_val == "original" && opt.allow_original.getD false then none
  else
    match pyInt str_val with
    | none => some (Detail400.invalidDimensionValue opt.id str_val)
    | some num =>
        let omin := opt.min.getD 1
        let omax := opt.max.getD 99999
        if num < omin || num > omax then
          some (Detail400.dimensionOutOfRange opt.id omin omax num)
        else none

/-- One iteration of the `_validate_options` loop for one schema entry:
`none` when the loop continues, `some detail` when it raises
`HTTPException(400, detail)`.  Non-dimension entries and absent or
JSON-null values are skipped. -/
def validate_option (options : List (String × JsonVal)) (opt : OptionDef) :
    Option Detail400 :=
  if opt.type ≠ "dimension" then none
  else
    match dictGet options opt.id with
    | none => none
    | some JsonVal.null => none
    | some v => validate_dimension_value opt v

/-- `_validate_options`: first raised error over the schema, in order. -/
def validate_options (processor : Processor)
    (options : List (String × JsonVal)) : Option Detail400 :=
  processor.options_schema.findSome? (validate_option options)

/-- The multipart form of `POST /jobs`: `file.filename` (which may be
`None`), the `processor_id` form field, and the handled `options` field. -/
structure SubmitRequest where
  filename : Option String
  processor_id : String
  options : OptionsField
deriving DecidableEq, Repr

inductive JobsResponse
  | err400 (detail : Detail400)
  | ok (snapshot : JobDict)
deriving DecidableEq, Repr

def JobsResponse.isErr : JobsResponse → Bool
  | .err400 _ => true
  | .ok _ => false

/-- Files persisted by `save_upload` (`services/file_manager.py`):
`(job_id, filename)` pairs, one per file written under
`uploads/<job_id>/<filename>`. -/
abbrev FileState := List (String × String)

/-- The accepting tail of `create_job`: read the upload, create the Job
(status Pending), save the upload under `uploads/<job_id>/`, return the
snapshot.  `file.filename or "upload"` is the fallback used here. -/
def create_job_accept (req : SubmitRequest) (st : ManagerState)
    (fs : FileState) (genId : String) :
    JobsResponse × ManagerState × FileState :=
  let cr := JobManager.create st genId req.processor_id (pyOr req.filename "upload")
  let fs' := fs ++ [(cr.2.id, pyOr req.filename "upload")]
  (.ok cr.2.to_dict, cr.1, fs')

/-- `POST /jobs` (`create_job`, routers/jobs.py).  `procs` is the registry
contents, `genId` the id the random generator yields for the
`job_manager.create` call.  Returns the HTTP response together with the
manager and file states after the request; the spawned `_run_job` task is
modelled separately by `run_job`. -/
def create_job (procs : List Processor) (req : SubmitRequest)
    (st : ManagerState) (fs : FileState) (genId : String) :
    JobsResponse × ManagerState × FileState :=
  match procs.find? (fun p => p.id == req.processor_id) with
  | none => (.err400 (.unknownProcessor req.processor_id), st, fs)
  | some processor =>
      let ext := derived_ext (pyOr req.filename "file")
      if !(processor.accepted_extensions.contains ext) then
        (.err400 (.extNotAccepted ext), st, fs)
      else
        match req.options with
        | .malformed => (.err400 .invalidOptionsJson, st, fs)
        | .omitted =>
            match validate_options processor [] with
            | some detail => (.err400 detail, st, fs)
            | none => create_job_accept req st fs genId
        | .parsed parsed_options =>
            match validate_options processor parsed_options with
            | some detail => (.err400 detail, st, fs)
            | none => create_job_accept req st fs genId

/-! ## Result download (`download_result`, routers/jobs.py) -/

/-- The fixed `_MEDIA_TYPES` table. -/
def mediaTypes : List (String × String) :=
  [ (".webp", "image/webp")
  , (".png", "image/png")
  , (".jpg", "image/jpeg")
  , (".gif", "image/gif")
  , (".bmp", "image/bmp")
  , (".tiff", "image/tiff")
  , (".mp4", "video/mp4")
  , (".mov", "video/quicktime")
  , (".webm", "video/webm")
  , (".avi", "video/x-msvideo")
  , (".mkv", "video/x-matroska")
  , (".zip", "application/zip")
  , (".mp3", "audio/mpeg")
  , (".aac", "audio/aac")
  , (".wav", "audio/wav")
  , (".flac", "audio/flac")
  , (".ogg", "audio/ogg")
  , (".pdf", "application/pdf")
  , (".txt", "text/plain")
  , (".json", "application/json")
  , (".m4a", "audio/mp4")
  , (".wma", "audio/x-ms-wma") ]

inductive DownloadResponse
  | notFound
  | badRequest
  | file (path media_type filename : String)
deriving DecidableEq, Repr

/-- `GET /jobs/id/result`: 404 on unknown id; 400 unless status is
Completed and `result_path` is set; otherwise a `FileResponse` with the
media type from the table (octet-stream fallback) and filename
`stem ++ ext`. -/
def download_result (st : ManagerState) (job_id : String) : DownloadResponse :=
  match JobManager.get st job_id with
  | none => .notFound
  | some job =>
      match job.result_path with
      | none => .badRequest
      | some rp =>
          if job.status ≠ JobStatus.completed then .badRequest
          else
            let ext := pyLower (pySuffix rp)
            .file rp ((dictGet mediaTypes ext).getD "application/octet-stream")
              (stemOf job.original_filename ++ ext)

/-! ## Job execution (`_run_job`, routers/jobs.py) -/

/-- The number of positional arguments `_run_job` passes to
`processor.process`: `input_path, output_dir, on_progress, options,
input_paths`. -/
def runJobPositionalArgs : ℕ := 5

/-- `str(e)` of the `TypeError` raised when `process` receives more
positional arguments than its signature accepts (exact CPython message text
not modelled). -/
def typeErrorMessage : String := "process takes too many positional arguments"

/-- Abstraction of one processor execution as observed by the job manager:
the number of positional parameters its `process` method accepts after
`self`, the `(percent, message)` events its body awaits through
`on_progress`, and the result path it returns.  Processor bodies themselves
are external collaborators (spec section 1). -/
structure RunProcessor where
  maxPositionalParams : ℕ
  emits : List (ℚ × String)
  result : String
deriving DecidableEq, Repr

/-- `ImageConvertProcessor.process(self, input_path, output_dir,
on_progress, options=None)`: 4 positional parameters after `self` (no
`input_paths`); its body emits 20 then 100 and returns
`output_dir / "output.<format>"` (here format `jpg`). -/
def imageConvertRun (job_id : String) : RunProcessor :=
  { maxPositionalParams := 4
    emits := [(20, "Converting image..."), (100, "Done!")]
    result := "jobs/" ++ job_id ++ "/output.jpg" }

/-- `job.status = JobStatus.PROCESSING` at the top of `_run_job` (a no-op
when the job has disappeared, since `_run_job` returns early). -/
def set_processing (st : ManagerState) (job_id : String) : ManagerState :=
  match dictGet st.jobs job_id with
  | none => st
  | some job =>
      let job' : Job := { job with status := .processing }
      { st with jobs := dictSet st.jobs job_id job' }

/-- `for q in job._listeners: await q.put(ev)`. -/
def put_all (st : ManagerState) (job_id : String) (ev : QueueEvent) :
    ManagerState :=
  match dictGet st.jobs job_id with
  | none => st
  | some job =>
      let job' : Job := { job with listeners := job.listeners.map (fun q => q ++ [ev]) }
      { st with jobs := dictSet st.jobs job_id job' }

/-- `_run_job`: set Processing, dispatch `processor.process` with 5
positional arguments.  When the signature accepts fewer, the call raises
`TypeError`, caught by the `except` branch (mark_failed plus a failure put
to every listener, carrying the job's current progress).  On normal return:
`mark_completed`, then `update_progress(100, "Done!")`, then one
`completed` put to every listener. -/
def run_job (st : ManagerState) (job_id : String) (proc : RunProcessor) :
    ManagerState :=
  match JobManager.get st job_id with
  | none => st
  | some _ =>
      let st1 := set_processing st job_id
      if runJobPositionalArgs > proc.maxPositionalParams then
        match JobManager.mark_failed st1 job_id typeErrorMessage with
        | none => st1
        | some st2 =>
            let progress := ((JobManager.get st2 job_id).map Job.progress).getD 0
            put_all st2 job_id
              { progress := progress, message := typeErrorMessage, status := "failed" }
      else
        let st2 := proc.emits.foldl
          (fun s pm => JobManager.update_progress s job_id pm.1 pm.2) st1
        match JobManager.mark_completed st2 job_id proc.result with
        | none => st2
        | some st3 =>
            let st4 := JobManager.update_progress st3 job_id 100 "Done!"
            put_all st4 job_id
              { progress := 100, message := "Done!", status := "completed" }

/-! ## SSE stream (`job_progress_sse.event_stream`, routers/jobs.py) -/

def isTerminalEvent (ev : QueueEvent) : Bool :=
  ev.status == JobStatus.completed.value || ev.status == JobStatus.failed.value

/-- The events the `event_stream` loop yields after the initial snapshot,
given the events sitting in the subscriber's queue in arrival order: each
event is forwarded, and the loop breaks right after the first terminal
event. -/
def sse_deliver : List QueueEvent → List QueueEvent
  | [] => []
  | ev :: rest => if isTerminalEvent ev then [ev] else ev :: sse_deliver rest

/-! ## Operation sequences over the job manager -/

def JobStatus.isTerminal : JobStatus → Bool
  | .completed => true
  | .failed => true
  | _ => false

/-- The forward order of the status lattice Pending → Processing →
Completed/Failed; the two terminal states lie only below themselves. -/
def statusLeB : JobStatus → JobStatus → Bool
  | .pending, _ => true
  | .processing, .processing => true
  | .processing, .completed => true
  | .processing, .failed => true
  | .completed, .completed => true
  | .failed, .failed => true
  | _, _ => false

/-- The state-mutating operations of the job manager, plus the
`job.status = PROCESSING` assignment `_run_job` performs directly.
The ids random generators would produce are explicit arguments. -/
inductive Op
  | create (genId processor_id original_filename : String)
  | set_processing (job_id : String)
  | update_progress (job_id : String) (progress : ℚ) (message : String)
  | mark_completed (job_id result_path : String)
  | mark_failed (job_id error : String)
  | subscribe (job_id : String)
  | unsubscribe (job_id : String) (i : ℕ)
  | create_batch (genId processor_id : String) (job_ids : List String)
  | remove_job (job_id : String)
deriving DecidableEq, Repr

/-- One operation applied to the manager state; `none` models an uncaught
Python exception (the `KeyError` of `mark_completed` / `mark_failed` on an
unknown id). -/
def execOp (st : ManagerState) : Op → Option ManagerState
  | .create genId pid fname => some (JobManager.create st genId pid fname).1
  | .set_processing jid => some (set_processing st jid)
  | .update_progress jid p m => some (JobManager.update_progress st jid p m)
  | .mark_completed jid rp => JobManager.mark_completed st jid rp
  | .mark_failed jid err => JobManager.mark_failed st jid err
  | .subscribe jid => some (JobManager.subscribe st jid)
  | .unsubscribe jid i => some (JobManager.unsubscribe st jid i)
  | .create_batch gid pid jids => some (JobManager.create_batch st gid pid jids).1
  | .remove_job jid => some (JobManager.remove_job st jid)

def runOps (st : ManagerState) : List Op → Option ManagerState
  | [] => some st
  | op :: ops =>
      match execOp st op with
      | none => none
      | some st' => runOps st' ops

/-- Side conditions under which the amended monotonicity claim holds:
`create` only with an id not already in the job table, `set_processing`
only on a Pending job, and the terminal marks only on a job not already in
a terminal state. -/
def guardOK (st : ManagerState) : Op → Bool
  | .create genId _ _ => (dictGet st.jobs genId).isNone
  | .set_processing jid =>
      match dictGet st.jobs jid with
      | none => true
      | some job => job.status == .pending
  | .mark_completed jid _ =>
      match dictGet st.jobs jid with
      | none => true
      | some job => !job.status.isTerminal
  | .mark_failed jid _ =>
      match dictGet st.jobs jid with
      | none => true
      | some job => !job.status.isTerminal
  | _ => true

/-- Every operation of the sequence satisfies its guard in the state where
it executes. -/
def Guarded (st : ManagerState) : List Op → Bool
  | [] => true
  | op :: ops =>
      guardOK st op &&
        (match execOp st op with
         | none => true
         | some st' => Guarded st' ops)

/-- The job `j` is in the job table in every state the sequence passes
through (a removed-and-recreated id denotes a different job). -/
def PresentThrough (j : String) (st : ManagerState) : List Op → Bool
  | [] => true
  | op :: ops =>
      (dictGet st.jobs j).isSome &&
        (match execOp st op with
         | none => true
         | some st' => PresentThrough j st' ops)

/-! ## Dictionary lemmas -/

theorem dictGet_dictSet {α : Type} (d : List (String × α)) (k j : String)
    (v : α) :
    dictGet (dictSet d k v) j = if j = k then some v else dictGet d j := by
  induction d with
  | nil =>
      simp only [dictSet, dictGet]
      by_cases h : k = j
      · subst h; simp
      · rw [if_neg h, if_neg (fun hh => h hh.symm)]
  | cons e es ih =>
      simp only [dictSet]
      by_cases hek : e.1 = k
      · simp only [if_pos hek, dictGet]
        by_cases hjk : j = k
        · simp [hjk]
        · simp [hjk, show ¬ k = j from fun h => hjk h.symm,
            show ¬ e.1 = j from fun h => hjk (h.symm.trans hek)]
      · simp only [if_neg hek, dictGet, ih]
        by_cases hej : e.1 = j
        · simp [hej, show ¬ j = k from fun h => hek (hej.trans h)]
        · simp [hej]

theorem dictGet_dictPop {α : Type} (d : List (String × α)) (k j : String) :
    dictGet (dictPop d k) j = if j = k then none else dictGet d j := by
  induction d with
  | nil => by_cases h : j = k <;> simp [dictPop, dictGet, h]
  | cons e es ih =>
      simp only [dictPop, List.filter]
      by_cases hek : e.1 = k
      · have hb : (decide (e.1 ≠ k)) = false := by simp [hek]
        simp only [hb]
        rw [show List.filter (fun e => decide (e.1 ≠ k)) es = dictPop es k from rfl, ih]
        by_cases hjk : j = k
        · simp [hjk]
        · simp [hjk, dictGet, show ¬ e.1 = j from fun h => hjk (h.symm.trans hek)]
      · have hb : (decide (e.1 ≠ k)) = true := by simp [hek]
        simp only [hb]
        rw [show List.filter (fun e => decide (e.1 ≠ k)) es = dictPop es k from rfl]
        simp only [dictGet, ih]
        by_cases hej : e.1 = j
        · simp [hej, show ¬ j = k from fun h => hek (hej.trans h)]
        · simp [hej]

/-! ## Status-order lemmas -/

theorem statusLeB_refl (s : JobStatus) : statusLeB s s = true := by
  cases s <;> rfl

theorem statusLeB_trans (a b c : JobStatus) (h1 : statusLeB a b = true)
    (h2 : statusLeB b c = true) : statusLeB a c = true := by
  cases a <;> cases b <;> cases c <;> simp_all [statusLeB]

/-- Looking up any key after a `dictSet` whose new value does not move the
status backwards preserves the status order. -/
theorem status_le_of_dictSet (stJobs : List (String × Job)) (k : String)
    (job job' : Job) (hk : dictGet stJobs k = some job)
    (hle : statusLeB job.status job'.status = true) (j : String) (jb jb' : Job)
    (h1 : dictGet stJobs j = some jb)
    (h2 : dictGet (dictSet stJobs k job') j = some jb') :
    statusLeB jb.status jb'.status = true := by
  rw [dictGet_dictSet] at h2
  by_cases hj : j = k
  · subst hj
    rw [h1] at hk
    cases hk
    rw [if_pos rfl] at h2
    cases h2
    exact hle
  · rw [if_neg hj, h1] at h2
    cases h2
    exact statusLeB_refl _

/-- One guarded operation never moves any job's status backwards. -/
theorem execOp_status_le (st st' : ManagerState) (op : Op) (j : String)
    (jb jb' : Job) (hg : guardOK st op = true) (hx : execOp st op = some st')
    (h1 : dictGet st.jobs j = some jb) (h2 : dictGet st'.jobs j = some jb') :
    statusLeB jb.status jb'.status = true := by
  cases op with
  | create genId pid fname =>
      simp only [execOp, JobManager.create, Option.some.injEq] at hx
      simp only [guardOK, Option.isNone_iff_eq_none] at hg
      subst hx
      simp only [dictGet_dictSet] at h2
      by_cases hj : j = genId
      · rw [← hj] at hg; rw [h1] at hg; cases hg
      · rw [if_neg hj, h1] at h2; cases h2; exact statusLeB_refl _
  | set_processing jid =>
      simp only [execOp, set_processing] at hx
      cases hjob : dictGet st.jobs jid with
      | none => rw [hjob] at hx; cases hx; rw [h1] at h2; cases h2; exact statusLeB_refl _
      | some job =>
          rw [hjob] at hx
          simp only [Option.some.injEq] at hx
          subst hx
          simp only [guardOK, hjob, beq_iff_eq] at hg
          refine status_le_of_dictSet st.jobs jid job _ hjob ?_ j jb jb' h1 h2
          rw [hg]; rfl
  | update_progress jid p m =>
      simp only [execOp, JobManager.update_progress] at hx
      cases hjob : dictGet st.jobs jid with
      | none => rw [hjob] at hx; cases hx; rw [h1] at h2; cases h2; exact statusLeB_refl _
      | some job =>
          rw [hjob] at hx
          simp only [Option.some.injEq] at hx
          subst hx
          refine status_le_of_dictSet st.jobs jid job _ hjob ?_ j jb jb' h1 h2
          exact statusLeB_refl _
  | mark_completed jid rp =>
      simp only [execOp, JobManager.mark_completed] at hx
      cases hjob : dictGet st.jobs jid with
      | none => rw [hjob] at hx; cases hx
      | some job =>
          rw [hjob] at hx
          simp only [Option.some.injEq] at hx
          subst hx
          simp only [guardOK, hjob] at hg
          refine status_le_of_dictSet st.jobs jid job _ hjob ?_ j jb jb' h1 h2
          cases hs : job.status <;> rw [hs] at hg <;> first
            | rfl
            | exact absurd hg (by simp [JobStatus.isTerminal])
  | mark_failed jid err =>
      simp only [execOp, JobManager.mark_failed] at hx
      cases hjob : dictGet st.jobs jid with
      | none => rw [hjob] at hx; cases hx
      | some job =>
          rw [hjob] at hx
          simp only [Option.some.injEq] at hx
          subst hx
          simp only [guardOK, hjob] at hg
          refine status_le_of_dictSet st.jobs jid job _ hjob ?_ j jb jb' h1 h2
          cases hs : job.status <;> rw [hs] at hg <;> first
            | rfl
            | exact absurd hg (by simp [JobStatus.isTerminal])
  | subscribe jid =>
      simp only [execOp, JobManager.subscribe] at hx
      cases hjob : dictGet st.jobs jid with
      | none => rw [hjob] at hx; cases hx; rw [h1] at h2; cases h2; exact statusLeB_refl _
      | some job =>
          rw [hjob] at hx
          simp only [Option.some.injEq] at hx
          subst hx
          refine status_le_of_dictSet st.jobs jid job _ hjob ?_ j jb jb' h1 h2
          exact statusLeB_refl _
  | unsubscribe jid i =>
      simp only [execOp, JobManager.unsubscribe] at hx
      cases hjob : dictGet st.jobs jid with
      | none => rw [hjob] at hx; cases hx; rw [h1] at h2; cases h2; exact statusLeB_refl _
      | some job =>
          rw [hjob] at hx
          simp only [Option.some.injEq] at hx
          subst hx
          refine status_le_of_dictSet st.jobs jid job _ hjob ?_ j jb jb' h1 h2
          exact statusLeB_refl _
  | create_batch gid pid jids =>
      simp only [execOp, JobManager.create_batch, Option.some.injEq] at hx
      subst hx
      rw [h1] at h2; cases h2; exact statusLeB_refl _
  | remove_job jid =>
      simp only [execOp, JobManager.remove_job, Option.some.injEq] at hx
      subst hx
      simp only [dictGet_dictPop] at h2
      by_cases hj : j = jid
      · rw [if_pos hj] at h2; cases h2
      · rw [if_neg hj, h1] at h2; cases h2; exact statusLeB_refl _

/-- Along any guarded run in which job `j` stays present, its status is
nondecreasing in the forward order of the lattice. -/
theorem runOps_status_le (ops : List Op) (st st' : ManagerState) (j : String)
    (jb jb' : Job) (hg : Guarded st ops = true) (hr : runOps st ops = some st')
    (hp : PresentThrough j st ops = true) (h1 : dictGet st.jobs j = some jb)
    (h2 : dictGet st'.jobs j = some jb') :
    statusLeB jb.status jb'.status = true := by
  induction ops generalizing st jb with
  | nil =>
      simp only [runOps, Option.some.injEq] at hr
      subst hr
      rw [h1] at h2; cases h2; exact statusLeB_refl _
  | cons op ops ih =>
      simp only [runOps] at hr
      cases hx : execOp st op with
      | none => rw [hx] at hr; cases hr
      | some st1 =>
          rw [hx] at hr
          simp only [Guarded, hx, Bool.and_eq_true] at hg
          simp only [PresentThrough, hx, Bool.and_eq_true] at hp
          have hpres : (dictGet st1.jobs j).isSome = true := by
            cases ops with
            | nil =>
                simp only [runOps, Option.some.injEq] at hr
                subst hr
                rw [h2]; rfl
            | cons op' ops' =>
                have := hp.2
                simp only [PresentThrough, Bool.and_eq_true] at this
                exact this.1
          obtain ⟨jb1, hjb1⟩ := Option.isSome_iff_exists.mp hpres
          exact statusLeB_trans _ _ _
            (execOp_status_le st st1 op j jb jb1 hg.1 hx h1 hjb1)
            (ih st1 jb1 hg.2 hr hp.2 hjb1)

/-! ## Scenario: the single-success submission (spec section 8, scenario 1) -/

/-- `POST /jobs` with `processor_id="image-convert"`, `file="photo.png"`,
`options` decoding to `format:"jpg"`, `quality:80`, `resize:"original"`. -/
def c1_request : SubmitRequest :=
  { filename := some "photo.png"
    processor_id := "image-convert"
    options := .parsed [("format", JsonVal.str "jpg"), ("quality", JsonVal.int 80),
      ("resize", JsonVal.str "original")] }

def c1_genId : String := "ab34cd56ef78"

def c1_submit : JobsResponse × ManagerState × FileState :=
  create_job [imageConvertProcessor] c1_request emptyState [] c1_genId

/-- The manager state after the spawned `_run_job` task finishes. -/
def c1_final : ManagerState :=
  run_job c1_submit.2.1 c1_genId (imageConvertRun c1_genId)

/-- `round(0, 1) = 0` (kernel-opaque rational arithmetic, proved once). -/
theorem pyRound1_intCast (n : ℤ) : pyRound1 (n : ℚ) = (n : ℚ) := by
  have hx : (n : ℚ) * 10 = ((n * 10 : ℤ) : ℚ) := by push_cast; ring
  simp only [pyRound1, hx, Int.floor_intCast, sub_self]
  rw [if_pos (by norm_num)]
  push_cast
  ring

theorem pyRound1_natCast (n : ℕ) : pyRound1 (n : ℚ) = (n : ℚ) := by
  have := pyRound1_intCast (n : ℤ)
  push_cast at this
  exact this

/-- **C1.** The submission itself succeeds with a Pending snapshot, but
`_run_job` dispatches `processor.process` with 5 positional arguments while
`ImageConvertProcessor.process` accepts only 4, so the call raises
`TypeError` inside the `try` block and the job ends Failed with
`result_extension = ""` — not Completed with `".jpg"` as the spec's
single-success scenario requires. -/
theorem C1_image_convert_run_fails :
    c1_submit.1 = JobsResponse.ok
      { id := c1_genId, processor_id := "image-convert",
        original_filename := "photo.png", status := "pending", progress := 0,
        message := "", result_extension := "", error := none } ∧
    runJobPositionalArgs > (imageConvertRun c1_genId).maxPositionalParams ∧
    (dictGet c1_final.jobs c1_genId).map Job.status = some JobStatus.failed ∧
    (dictGet c1_final.jobs c1_genId).map (fun j => j.to_dict.result_extension)
      = some "" := by
  have h0 : pyRound1 ((0 : ℕ) : ℚ) = ((0 : ℕ) : ℚ) := pyRound1_natCast 0
  norm_num at h0
  refine ⟨?_, by decide, by decide, by decide⟩
  have hs : c1_submit.1 = JobsResponse.ok
      { id := c1_genId, processor_id := "image-convert",
        original_filename := "photo.png", status := "pending",
        progress := pyRound1 0, message := "", result_extension := "",
        error := none } := rfl
  rw [hs, h0]

/-- **C2.** `BaseProcessor` does not define `accepts_multiple_files` and 22
of the 24 registered processor classes (all but `pdf-merge` and
`image-to-pdf`) do not either, so reading the attribute is undefined for
them (AttributeError), and `list_processors` fails on the first registered
processor instead of serializing a default `false`. -/
theorem C2_accepts_multiple_files_undefined :
    dictGet registryMultiAttr "image-convert" = some none ∧
    (registryMultiAttr.filter (fun e => e.2.isNone)).length = 22 ∧
    registryMultiAttr.length = 24 ∧
    list_processors_multi = Except.error "AttributeError on video-bg-remove" := by
  refine ⟨by decide, by decide, by decide, rfl⟩

/-! ## Scenario: id collision on create (C6) -/

def c6_st1 : ManagerState :=
  (JobManager.create emptyState "aaaabbbbcccc" "image-convert" "a.png").1

def c6_st2 : ManagerState :=
  (JobManager.create c6_st1 "aaaabbbbcccc" "pdf-merge" "b.pdf").1

/-- **C6.** When the random generator yields an id already in use,
`JobManager.create` does not retry: `self._jobs[job.id] = job` overwrites
the existing record, losing the first job. -/
theorem C6_create_overwrites_on_collision :
    (dictGet c6_st1.jobs "aaaabbbbcccc").map Job.processor_id
      = some "image-convert" ∧
    c6_st2.jobs.length = 1 ∧
    (dictGet c6_st2.jobs "aaaabbbbcccc").map Job.processor_id
      = some "pdf-merge" := by
  refine ⟨by decide, by decide, by decide⟩

/-- **C9.** `update_progress` with an id that is not in the job table is a
silent no-op: the state (jobs, batches, every listener queue) is returned
unchanged and no event is enqueued anywhere. -/
theorem C9_update_progress_unknown_noop (st : ManagerState) (job_id : String)
    (progress : ℚ) (message : String) (h : dictGet st.jobs job_id = none) :
    JobManager.update_progress st job_id progress message = st := by
  unfold JobManager.update_progress
  rw [h]

theorem C9_update_progress_unknown_noop_witness :
    dictGet emptyState.jobs "zzzz" = none ∧
    JobManager.update_progress emptyState "zzzz" 50 "halfway" = emptyState :=
  ⟨by decide, C9_update_progress_unknown_noop emptyState "zzzz" 50 "halfway" (by decide)⟩

/-! ## Scenario: terminal marks have no terminal-state guard (C3) -/

def c3_jid : String := "a1b2c3d4e5f6"

def c3_ops_ok : List Op :=
  [.create c3_jid "image-convert" "x.png", .set_processing c3_jid,
   .mark_completed c3_jid "jobs/a1b2c3d4e5f6/output.png"]

def c3_ops_bad : List Op := c3_ops_ok ++ [.mark_failed c3_jid "boom"]

/-- **C3 counterexample.** `mark_failed` applied to a Completed job flips
its status to Failed: after create, set-processing and `mark_completed` the
job is Completed, and one further `mark_failed` call changes the status
again, contradicting *once Completed or Failed the status never changes*. -/
theorem C3_mark_failed_after_completed :
    ((runOps emptyState c3_ops_ok).bind
      (fun st => (dictGet st.jobs c3_jid).map Job.status))
        = some JobStatus.completed ∧
    ((runOps emptyState c3_ops_bad).bind
      (fun st => (dictGet st.jobs c3_jid).map Job.status))
        = some JobStatus.failed := by
  refine ⟨by decide, by decide⟩

/-- **C3 (amended).** Status is monotonic along every sequence of manager
operations *provided* `create` is never handed an id already in the table,
the Processing assignment only hits Pending jobs, and `mark_completed` /
`mark_failed` are never applied to a job already in a terminal state (which
holds for the sequences `_run_job` actually performs); the unguarded
methods themselves set the terminal fields unconditionally. -/
theorem C3_status_monotonic_guarded (ops : List Op) (st st' : ManagerState)
    (j : String) (jb jb' : Job) (hg : Guarded st ops = true)
    (hr : runOps st ops = some st') (hp : PresentThrough j st ops = true)
    (h1 : dictGet st.jobs j = some jb) (h2 : dictGet st'.jobs j = some jb') :
    statusLeB jb.status jb'.status = true :=
  runOps_status_le ops st st' j jb jb' hg hr hp h1 h2

def c3w_jb : Job := { id := "j1", processor_id := "p", original_filename := "f.png" }

def c3w_st0 : ManagerState := { jobs := [("j1", c3w_jb)] }

def c3w_ops : List Op := [.set_processing "j1", .mark_completed "j1" "out.png"]

def c3w_jb1 : Job :=
  { id := "j1", processor_id := "p", original_filename := "f.png",
    status := .completed, progress := 100, message := "Done!",
    result_path := some "out.png" }

def c3w_st1 : ManagerState := { jobs := [("j1", c3w_jb1)] }

theorem C3_status_monotonic_guarded_witness :
    Guarded c3w_st0 c3w_ops = true ∧
    statusLeB c3w_jb.status c3w_jb1.status = true :=
  ⟨by decide,
   C3_status_monotonic_guarded c3w_ops c3w_st0 c3w_st1 "j1" c3w_jb c3w_jb1
     (by decide) (by decide) (by decide) (by decide) (by decide)⟩

/-! ## Scenario: SSE delivery for a processor emitting 10, 50, 100 (C4) -/

def c4_jid : String := "cd56ef78ab12"

def c4_state0 : ManagerState :=
  (JobManager.create emptyState c4_jid "pdf-merge" "a.pdf").1

/-- The subscriber connects while the job is still Pending. -/
def c4_state1 : ManagerState := JobManager.subscribe c4_state0 c4_jid

/-- A processor whose signature accepts the 5-argument dispatch, emits
progress `10, 50, 100`, and returns normally. -/
def c4_proc : RunProcessor :=
  { maxPositionalParams := 5
    emits := [(10, "Step 1"), (50, "Step 2"), (100, "Step 3")]
    result := "jobs/cd56ef78ab12/output.pdf" }

def c4_state2 : ManagerState := run_job c4_state1 c4_jid c4_proc

/-- The single subscriber's queue contents after the run, in arrival
order. -/
def c4_queue : List QueueEvent :=
  (((dictGet c4_state2.jobs c4_jid).map Job.listeners).getD []).headD []

def c4_delivered : List QueueEvent := sse_deliver c4_queue

/-- **C4 counterexample.** The progress fields of the events delivered
after the initial snapshot are not `[10, 50, 100]`: `_run_job` additionally
publishes `update_progress(100, "Done!")` after `mark_completed`, an extra
progress-carrying terminal event the stream delivers before closing. -/
theorem C4_extra_terminal_progress_event :
    c4_delivered.map QueueEvent.progress ≠ [10, 50, 100] := by
  intro hc
  have h4 : (c4_delivered.map QueueEvent.progress).length = 4 := rfl
  rw [hc] at h4
  exact absurd h4 (by decide)

/-- **C4 (amended).** The delivered progress fields are `[10, 50, 100]`
followed by exactly one synthetic terminal event that also carries progress
100 (the manager's `Done!` event, whose status is already `completed`);
filtered to non-terminal events they are exactly `[10, 50, 100]`, in
emission order. -/
theorem C4_delivered_events :
    c4_delivered.map QueueEvent.progress = [10, 50, 100, 100] ∧
    (c4_delivered.filter (fun e => !(isTerminalEvent e))).map QueueEvent.progress
      = [10, 50, 100] ∧
    c4_delivered.getLast?.map QueueEvent.status = some "completed" := by
  have h10 : pyRound1 (10 : ℚ) = 10 := by simpa using pyRound1_natCast 10
  have h50 : pyRound1 (50 : ℚ) = 50 := by simpa using pyRound1_natCast 50
  have h100 : pyRound1 (100 : ℚ) = 100 := by simpa using pyRound1_natCast 100
  refine ⟨?_, ?_, ?_⟩
  · have hm : c4_delivered.map QueueEvent.progress
        = [pyRound1 10, pyRound1 50, pyRound1 100, pyRound1 100] := rfl
    rw [hm, h10, h50, h100]
  · have hm : (c4_delivered.filter (fun e => !(isTerminalEvent e))).map QueueEvent.progress
        = [pyRound1 10, pyRound1 50, pyRound1 100] := rfl
    rw [hm, h10, h50, h100]
  · rfl

/-! ## Removal and batches (C8) -/

def c8_job : Job := { id := "jx", processor_id := "p", original_filename := "f" }

def c8_batch : Batch := { id := "b1", job_ids := ["jx", "jx"], processor_id := "p" }

def c8_state : ManagerState :=
  { jobs := [("jx", c8_job)], batches := [("b1", c8_batch)] }

/-- **C8 counterexample.** On a state where a batch's `job_ids` holds the
same id twice, `remove_job` — which uses `list.remove`, deleting only the
first occurrence — leaves the id in that batch, refuting the claim for
*every* manager state. -/
theorem C8_duplicate_id_survives_remove :
    (JobManager.remove_job c8_state "jx").batches.map (fun e => e.2.job_ids)
      = [["jx"]] ∧
    ¬ (∀ e ∈ (JobManager.remove_job c8_state "jx").batches,
        "jx" ∉ e.2.job_ids) := by
  refine ⟨by decide, by decide⟩

/-- **C8 (amended).** For every manager state, `remove_job(id)` removes the
id from the job table and leaves no batch with an empty `job_ids` list
(both unconditionally); it additionally removes the id from every batch
whenever no batch's `job_ids` contains duplicate entries (`list.remove`
drops only the first occurrence; the premise holds for every batch the
server itself builds from distinct fresh job ids). -/
theorem C8_remove_job (st : ManagerState) (job_id : String) :
    dictGet (JobManager.remove_job st job_id).jobs job_id = none ∧
    (∀ e ∈ (JobManager.remove_job st job_id).batches, e.2.job_ids ≠ []) ∧
    ((∀ e ∈ st.batches, e.2.job_ids.Nodup) →
      ∀ e ∈ (JobManager.remove_job st job_id).batches,
        job_id ∉ e.2.job_ids) := by
  refine ⟨?_, ?_, ?_⟩
  · have hj : (JobManager.remove_job st job_id).jobs = dictPop st.jobs job_id := rfl
    rw [hj, dictGet_dictPop, if_pos rfl]
  · intro e he hnil
    simp only [JobManager.remove_job, List.mem_filter] at he
    obtain ⟨-, hne⟩ := he
    rw [hnil] at hne
    simp at hne
  · intro h e he
    simp only [JobManager.remove_job, List.mem_filter, List.mem_map] at he
    obtain ⟨⟨e0, he0, heq⟩, hne⟩ := he
    subst heq
    by_cases hin : job_id ∈ e0.2.job_ids
    · simp only [if_pos hin]
      exact (h e0 he0).not_mem_erase
    · simp only [if_neg hin]
      exact hin

def c8w_ja : Job := { id := "ja", processor_id := "p", original_filename := "fa" }

def c8w_jb : Job := { id := "jb", processor_id := "p", original_filename := "fb" }

def c8w_batch : Batch := { id := "b1", job_ids := ["ja", "jb"], processor_id := "p" }

def c8w_state : ManagerState :=
  { jobs := [("ja", c8w_ja), ("jb", c8w_jb)], batches := [("b1", c8w_batch)] }

theorem C8_remove_job_witness :
    dictGet (JobManager.remove_job c8w_state "ja").jobs "ja" = none ∧
    (∀ e ∈ (JobManager.remove_job c8w_state "ja").batches, e.2.job_ids ≠ []) ∧
    (∀ e ∈ c8w_state.batches, e.2.job_ids.Nodup) ∧
    (∀ e ∈ (JobManager.remove_job c8w_state "ja").batches,
      "ja" ∉ e.2.job_ids) :=
  ⟨(C8_remove_job c8w_state "ja").1,
   (C8_remove_job c8w_state "ja").2.1,
   by decide,
   (C8_remove_job c8w_state "ja").2.2 (by decide)⟩

/-- **C7.** `GET /jobs/id/result`: 404 on an unknown id; 400 whenever the
status is not Completed or `result_path` is unset; otherwise the file at
`result_path` with the media type from the fixed table
(`application/octet-stream` for unlisted extensions) and the
Content-Disposition filename `stem(original_filename) ++ result_ext`. -/
theorem C7_download_result (st : ManagerState) (job_id : String) :
    (dictGet st.jobs job_id = none →
       download_result st job_id = DownloadResponse.notFound) ∧
    (∀ job, dictGet st.jobs job_id = some job →
       job.status ≠ JobStatus.completed ∨ job.result_path = none →
       download_result st job_id = DownloadResponse.badRequest) ∧
    (∀ job rp, dictGet st.jobs job_id = some job →
       job.status = JobStatus.completed → job.result_path = some rp →
       download_result st job_id = DownloadResponse.file rp
         ((dictGet mediaTypes (pyLower (pySuffix rp))).getD
           "application/octet-stream")
         (stemOf job.original_filename ++ pyLower (pySuffix rp))) := by
  refine ⟨?_, ?_, ?_⟩
  · intro h
    unfold download_result JobManager.get
    rw [h]
  · intro job hj hbad
    unfold download_result JobManager.get
    rw [hj]
    rcases hbad with hs | hp
    · cases hrp : job.result_path with
      | none => simp [hrp]
      | some rp => simp [hrp, hs]
    · simp [hp]
  · intro job rp hj hs hrp
    unfold download_result JobManager.get
    rw [hj]
    simp [hrp, hs]

def c7w_done : Job :=
  { id := "jc", processor_id := "p", original_filename := "photo.png",
    status := .completed, result_path := some "jobs/jc/output.JPG" }

def c7w_pending : Job :=
  { id := "jd", processor_id := "p", original_filename := "f.png" }

def c7w_state : ManagerState :=
  { jobs := [("jc", c7w_done), ("jd", c7w_pending)] }

theorem C7_download_result_witness :
    download_result emptyState "nope" = DownloadResponse.notFound ∧
    download_result c7w_state "jd" = DownloadResponse.badRequest ∧
    download_result c7w_state "jc"
      = DownloadResponse.file "jobs/jc/output.JPG" "image/jpeg" "photo.jpg" := by
  refine ⟨(C7_download_result emptyState "nope").1 (by decide), ?_, ?_⟩
  · exact (C7_download_result c7w_state "jd").2.1 c7w_pending (by decide)
      (Or.inl (by decide))
  · have h := (C7_download_result c7w_state "jc").2.2 c7w_done "jobs/jc/output.JPG"
      (by decide) (by decide) (by decide)
    rw [h]
    decide

/-! ## Extension derivation (C10) -/

theorem takeWhile_all {α : Type} (p : α → Bool) (l : List α)
    (h : ∀ a ∈ l, p a = true) : l.takeWhile p = l := by
  induction l with
  | nil => rfl
  | cons a l ih =>
      rw [List.takeWhile_cons, if_pos (h a (List.mem_cons_self a l))]
      rw [ih (fun b hb => h b (List.mem_cons_of_mem a hb))]

theorem takeWhile_append_stop {α : Type} (p : α → Bool) (l1 l2 : List α)
    (x : α) (h1 : ∀ a ∈ l1, p a = true) (hx : p x = false) :
    (l1 ++ x :: l2).takeWhile p = l1 := by
  induction l1 with
  | nil => simp [List.takeWhile_cons, hx]
  | cons a l ih =>
      rw [List.cons_append, List.takeWhile_cons,
        if_pos (h1 a (List.mem_cons_self a l)),
        ih (fun b hb => h1 b (List.mem_cons_of_mem a hb))]

theorem afterLastDot_no_dot (cs : List Char) (h : '.' ∉ cs) :
    afterLastDot cs = cs := by
  unfold afterLastDot
  rw [takeWhile_all _ _ ?_, List.reverse_reverse]
  intro a ha
  rw [List.mem_reverse] at ha
  exact decide_eq_true (fun hd => h (hd ▸ ha))

theorem afterLastDot_last_segment (pre post : List Char) (h : '.' ∉ post) :
    afterLastDot (pre ++ '.' :: post) = post := by
  unfold afterLastDot
  rw [List.reverse_append, List.reverse_cons, List.append_assoc,
    List.singleton_append]
  rw [takeWhile_append_stop _ _ _ _ ?_ (by simp), List.reverse_reverse]
  intro a ha
  rw [List.mem_reverse] at ha
  exact decide_eq_true (fun hd => h (hd ▸ ha))

/-- **C10.** The extension checked against `accepted_extensions` is `"."`
followed by the lowercased text after the last dot of the filename; a
filename with no dot contributes its whole lowercased text (`"README"`
yields `".readme"`), and a submission whose derived string is not among the
processor's accepted extensions is rejected with 400. -/
theorem C10_derived_extension :
    (∀ name : String, '.' ∉ name.data →
       derived_ext name = "." ++ pyLower name) ∧
    (∀ pre post : List Char, '.' ∉ post →
       derived_ext (String.mk (pre ++ '.' :: post))
         = String.mk ('.' :: post.map pyLowerChar)) ∧
    (∀ (procs : List Processor) (p : Processor) (req : SubmitRequest)
       (st : ManagerState) (fs : FileState) (genId : String),
       procs.find? (fun q => q.id == req.processor_id) = some p →
       p.accepted_extensions.contains (derived_ext (pyOr req.filename "file"))
         = false →
       (create_job procs req st fs genId).1
         = JobsResponse.err400
            (Detail400.extNotAccepted (derived_ext (pyOr req.filename "file")))) := by
  refine ⟨?_, ?_, ?_⟩
  · intro name h
    unfold derived_ext pyLower
    rw [afterLastDot_no_dot name.data h]
    rfl
  · intro pre post h
    unfold derived_ext
    rw [show (String.mk (pre ++ '.' :: post)).data = pre ++ '.' :: post from rfl]
    rw [afterLastDot_last_segment pre post h]
  · intro procs p req st fs genId hf hc
    unfold create_job
    rw [hf]
    have hmem : derived_ext (pyOr req.filename "file") ∉ p.accepted_extensions := by
      simpa using hc
    simp [hmem]

def c10w_req : SubmitRequest :=
  { filename := some "README", processor_id := "image-convert",
    options := .omitted }

theorem C10_derived_extension_witness :
    derived_ext "README" = "." ++ pyLower "README" ∧
    derived_ext "README" = ".readme" ∧
    (create_job [imageConvertProcessor] c10w_req emptyState [] "ffffeeeedddd").1
      = JobsResponse.err400 (Detail400.extNotAccepted ".readme") := by
  refine ⟨C10_derived_extension.1 "README" (by decide), by decide, ?_⟩
  have h := C10_derived_extension.2.2 [imageConvertProcessor] imageConvertProcessor
    c10w_req emptyState [] "ffffeeeedddd" (by decide) (by decide)
  rw [h]
  decide

/-! ## The 400 conditions of `POST /jobs` (C5)

The claim's conditions, written from its own wording, to be compared with
what the embedded `create_job` does. -/

/-- A supplied dimension value that is neither the literal `"original"`
(with `allow_original` true) nor an integer within `[min, max]`. -/
def bad_dimension_value (opt : OptionDef) (v : JsonVal) : Bool :=
  !(pyStr v == "original" && opt.allow_original.getD false) &&
    (match pyInt (pyStr v) with
     | none => true
     | some n => n < opt.min.getD 1 || n > opt.max.getD 99999)

/-- Some dimension option of the schema carries a supplied bad value. -/
def dimension_violation (p : Processor) (d : List (String × JsonVal)) : Bool :=
  p.options_schema.any (fun opt =>
    opt.type == "dimension" &&
      (match dictGet d opt.id with
       | none => false
       | some JsonVal.null => false
       | some v => bad_dimension_value opt v))

/-- The claim's four rejection conditions: unknown processor, extension not
accepted, malformed options JSON, or a dimension violation. -/
def submission_rejected (procs : List Processor) (req : SubmitRequest) : Bool :=
  match procs.find? (fun p => p.id == req.processor_id) with
  | none => true
  | some p =>
      !(p.accepted_extensions.contains (derived_ext (pyOr req.filename "file"))) ||
        (match req.options with
         | .malformed => true
         | .omitted => dimension_violation p []
         | .parsed d => dimension_violation p d)

theorem validate_dimension_value_isSome (opt : OptionDef) (v : JsonVal) :
    (validate_dimension_value opt v).isSome = bad_dimension_value opt v := by
  unfold validate_dimension_value bad_dimension_value
  by_cases horig : (pyStr v == "original" && opt.allow_original.getD false) = true
  · simp [horig]
  · rw [Bool.not_eq_true] at horig
    simp only [horig, Bool.false_eq_true, if_false, Bool.not_false, Bool.true_and]
    cases hpi : pyInt (pyStr v) with
    | none => rfl
    | some num =>
        by_cases hout : (num < opt.min.getD 1 || num > opt.max.getD 99999) = true
        · simp [hout]
        · rw [Bool.not_eq_true] at hout
          simp [hout]

theorem validate_option_isSome (d : List (String × JsonVal)) (opt : OptionDef) :
    (validate_option d opt).isSome
      = (opt.type == "dimension" &&
         (match dictGet d opt.id with
          | none => false
          | some JsonVal.null => false
          | some v => bad_dimension_value opt v)) := by
  unfold validate_option
  by_cases ht : opt.type = "dimension"
  · rw [if_neg (by simpa using ht)]
    have hb : (opt.type == "dimension") = true := by simp [ht]
    rw [hb, Bool.true_and]
    cases hv : dictGet d opt.id with
    | none => rfl
    | some v =>
        cases v with
        | null => rfl
        | bool b => exact validate_dimension_value_isSome opt (.bool b)
        | int n => exact validate_dimension_value_isSome opt (.int n)
        | str s => exact validate_dimension_value_isSome opt (.str s)
  · rw [if_pos ht]
    have hb : (opt.type == "dimension") = false := by simp [ht]
    rw [hb, Bool.false_and]
    rfl

theorem findSome_validate_isSome_any (d : List (String × JsonVal))
    (l : List OptionDef) :
    (l.findSome? (validate_option d)).isSome
      = l.any (fun opt =>
          opt.type == "dimension" &&
            (match dictGet d opt.id with
             | none => false
             | some JsonVal.null => false
             | some v => bad_dimension_value opt v)) := by
  induction l with
  | nil => rfl
  | cons opt l ih =>
      rw [List.findSome?_cons, List.any_cons]
      cases hfo : validate_option d opt with
      | some dd =>
          have := validate_option_isSome d opt
          rw [hfo] at this
          rw [← this]
          rfl
      | none =>
          have := validate_option_isSome d opt
          rw [hfo] at this
          rw [← this, ih]
          rfl

theorem validate_options_isSome (p : Processor) (d : List (String × JsonVal)) :
    (validate_options p d).isSome = dimension_violation p d :=
  findSome_validate_isSome_any d p.options_schema

/-- Behaviour of the tail of `create_job` once the processor is known and
the extension check has passed, as a function of the parsed options dict. -/
theorem create_job_tail_spec (p : Processor) (req : SubmitRequest)
    (st : ManagerState) (fs : FileState) (genId : String)
    (d : List (String × JsonVal)) :
    ((match validate_options p d with
       | some detail => (JobsResponse.err400 detail, st, fs)
       | none => create_job_accept req st fs genId).1.isErr
        = dimension_violation p d) ∧
    ((match validate_options p d with
       | some detail => (JobsResponse.err400 detail, st, fs)
       | none => create_job_accept req st fs genId).1.isErr = true →
      ((match validate_options p d with
         | some detail => (JobsResponse.err400 detail, st, fs)
         | none => create_job_accept req st fs genId).2.1 = st ∧
       (match validate_options p d with
         | some detail => (JobsResponse.err400 detail, st, fs)
         | none => create_job_accept req st fs genId).2.2 = fs)) := by
  have hvs := validate_options_isSome p d
  cases hvo : validate_options p d with
  | some dd =>
      rw [hvo] at hvs
      exact ⟨by rw [← hvs]; rfl, fun _ => ⟨rfl, rfl⟩⟩
  | none =>
      rw [hvo] at hvs
      refine ⟨by rw [← hvs]; rfl, ?_⟩
      intro hcon
      simp [create_job_accept, JobsResponse.isErr] at hcon

/-- **C5.** `POST /jobs` responds 400 exactly when the processor id is
unregistered, the derived lowercased extension is not among
`accepted_extensions`, the options field is malformed JSON, or a supplied
dimension option is neither `"original"` (with `allow_original`) nor an
integer within `[min, max]`; and whenever it responds 400, no Job is
created, no file is saved, and the manager state is unchanged. -/
theorem C5_create_job_400 (procs : List Processor) (req : SubmitRequest)
    (st : ManagerState) (fs : FileState) (genId : String) :
    ((create_job procs req st fs genId).1.isErr = submission_rejected procs req) ∧
    ((create_job procs req st fs genId).1.isErr = true →
       (create_job procs req st fs genId).2.1 = st ∧
       (create_job procs req st fs genId).2.2 = fs) := by
  unfold create_job submission_rejected
  cases hf : procs.find? (fun p => p.id == req.processor_id) with
  | none => exact ⟨rfl, fun _ => ⟨rfl, rfl⟩⟩
  | some p =>
      by_cases hext :
          (p.accepted_extensions.contains (derived_ext (pyOr req.filename "file")))
            = true
      · simp only [hext, Bool.not_true, Bool.false_eq_true, if_false,
          Bool.false_or]
        cases ho : req.options with
        | malformed => exact ⟨rfl, fun _ => ⟨rfl, rfl⟩⟩
        | omitted => exact create_job_tail_spec p req st fs genId []
        | parsed dd => exact create_job_tail_spec p req st fs genId dd
      · rw [Bool.not_eq_true] at hext
        simp only [hext, Bool.not_false, if_true, Bool.true_or]
        refine ⟨rfl, fun _ => ⟨?_, ?_⟩⟩ <;> first | rfl | trivial

def c5w_req : SubmitRequest :=
  { filename := some "a.png", processor_id := "no-such-processor",
    options := .omitted }

theorem C5_create_job_400_witness :
    ((create_job [imageConvertProcessor] c5w_req emptyState [] "abcdabcdabcd").1.isErr
       = submission_rejected [imageConvertProcessor] c5w_req) ∧
    (create_job [imageConvertProcessor] c5w_req emptyState [] "abcdabcdabcd").1.isErr
      = true ∧
    (create_job [imageConvertProcessor] c5w_req emptyState [] "abcdabcdabcd").2.1
      = emptyState ∧
    (create_job [imageConvertProcessor] c5w_req emptyState [] "abcdabcdabcd").2.2
      = [] :=
  ⟨(C5_create_job_400 [imageConvertProcessor] c5w_req emptyState [] "abcdabcdabcd").1,
   by decide,
   ((C5_create_job_400 [imageConvertProcessor] c5w_req emptyState [] "abcdabcdabcd").2
     (by decide)).1,
   ((C5_create_job_400 [imageConvertProcessor] c5w_req emptyState [] "abcdabcdabcd").2
     (by decide)).2⟩

end Vimix
